import Mathlib

/-!
Verification development for the greens-marketplace backend (Go, chi router,
PostgreSQL with pgvector, Redis).

The definitions below are a shallow embedding of the program:
the SQL schema and the stored SQL function search_products_semantic from
internal/database (schema file), the store-adapter constructors NewPostgresDB
and NewRedisClient, the RedisClient wrapper methods, and the router and
middleware wiring built in main.  External collaborators (the embedding
provider openai_embed_text and the pgvector distance operator) appear as
function parameters, as the specification treats them as interfaces.
-/

/-! ## Schema rows (CREATE TABLE statements of the schema file) -/

/-- Row of the users table: id, email, username, password_hash, is_active
(remaining columns are profile data not needed by any claim). -/
structure UserRow where
  id : Nat
  email : String
  username : String
  password_hash : String
  is_active : Bool
  deriving Repr, DecidableEq

/-- Row of the products table.  deleted_at models the nullable
TIMESTAMP column (none = NULL = not soft-deleted); is_active models the
BOOLEAN column. -/
structure ProductRow where
  id : Nat
  seller_id : Nat
  category_id : Option Nat
  title : String
  description : String
  price : Rat
  stock_quantity : Int
  is_featured : Bool
  is_active : Bool
  updated_at : Nat
  deleted_at : Option Nat
  deriving Repr, DecidableEq

/-- Row of the product_embeddings table: product_id is its PRIMARY KEY and
REFERENCES products(id) ON DELETE CASCADE; the three vector(1536) columns
are modelled as rational vectors. -/
structure ProductEmbeddingRow where
  product_id : Nat
  title_embedding : List Rat
  description_embedding : List Rat
  combined_embedding : List Rat
  updated_at : Nat
  deriving Repr, DecidableEq

/-- Row of the reviews table (fields used by the delete-cascade model). -/
structure ReviewRow where
  id : Nat
  product_id : Nat
  buyer_id : Nat
  seller_id : Nat
  rating : Nat
  deriving Repr, DecidableEq

/-- Row of the order_items table; product_id REFERENCES products(id)
without ON DELETE CASCADE. -/
structure OrderItemRow where
  id : Nat
  order_id : Nat
  product_id : Nat
  quantity : Nat
  price : Rat
  deriving Repr, DecidableEq

/-- Row of the cart table; product_id REFERENCES products(id) without
ON DELETE CASCADE (only user_id cascades). -/
structure CartRow where
  id : Nat
  user_id : Nat
  product_id : Nat
  quantity : Nat
  deriving Repr, DecidableEq

/-- Row of the wishlist table; product_id REFERENCES products(id)
ON DELETE CASCADE. -/
structure WishlistRow where
  id : Nat
  user_id : Nat
  product_id : Nat
  deriving Repr, DecidableEq

/-! ## Semantic search: the stored function search_products_semantic -/

/-- Output row type of search_products_semantic: RETURNS TABLE(product_id,
title, description, price, seller_id, similarity). -/
structure SemanticSearchRow where
  product_id : Nat
  title : String
  description : String
  price : Rat
  seller_id : Nat
  similarity : Rat
  deriving Repr, DecidableEq

/-- The WHERE clause of search_products_semantic:
p.is_active = true AND (category_filter IS NULL OR p.category_id = category_filter).
A NULL p.category_id never equals a non-NULL filter, hence the Option
comparison. -/
def semanticKeep (category_filter : Option Nat) (p : ProductRow) : Bool :=
  p.is_active &&
    match category_filter with
    | none => true
    | some c => p.category_id == some c

/-- The join FROM products p JOIN product_embeddings pe ON p.id = pe.product_id:
every pair of a product row and an embedding row whose product_id matches. -/
def semanticJoin (products : List ProductRow) (embeddings : List ProductEmbeddingRow) :
    List (ProductRow × ProductEmbeddingRow) :=
  products.flatMap fun p =>
    (embeddings.filter fun pe => pe.product_id == p.id).map fun pe => (p, pe)

/-- The SELECT list of search_products_semantic: the produced row carries
p.id, p.title, p.description, p.price, p.seller_id and the distance between
the stored combined embedding and the embedded query text. -/
def semanticScore (embed : String → List Rat) (dist : List Rat → List Rat → Rat)
    (query_text : String) (pr : ProductRow × ProductEmbeddingRow) : SemanticSearchRow :=
  { product_id := pr.1.id
    title := pr.1.title
    description := pr.1.description
    price := pr.1.price
    seller_id := pr.1.seller_id
    similarity := dist pr.2.combined_embedding (embed query_text) }

/-- Ordering used by the ORDER BY clause: ascending distance, i.e. nearest
first. -/
def simLE (a b : SemanticSearchRow) : Prop :=
  a.similarity ≤ b.similarity

instance : DecidableRel simLE := fun a b =>
  inferInstanceAs (Decidable (a.similarity ≤ b.similarity))

instance : IsTotal SemanticSearchRow simLE :=
  ⟨fun a b => le_total a.similarity b.similarity⟩

instance : IsTrans SemanticSearchRow simLE :=
  ⟨fun _ _ _ hab hbc => le_trans hab hbc⟩

/-- The ranked (unpaginated) result of search_products_semantic: join,
filter by the WHERE clause, build the SELECT rows, ORDER BY distance
ascending. -/
def semanticRank (embed : String → List Rat) (dist : List Rat → List Rat → Rat)
    (products : List ProductRow) (embeddings : List ProductEmbeddingRow)
    (query_text : String) (category_filter : Option Nat) : List SemanticSearchRow :=
  (((semanticJoin products embeddings).filter fun pr =>
      semanticKeep category_filter pr.1).map
    (semanticScore embed dist query_text)).insertionSort simLE

/-- The stored SQL function search_products_semantic(query_text,
category_filter, limit_results, offset_results): the ranked rows with
OFFSET offset_results and LIMIT limit_results applied. -/
def search_products_semantic (embed : String → List Rat)
    (dist : List Rat → List Rat → Rat)
    (products : List ProductRow) (embeddings : List ProductEmbeddingRow)
    (query_text : String) (category_filter : Option Nat)
    (limit_results offset_results : Nat) : List SemanticSearchRow :=
  ((semanticRank embed dist products embeddings query_text category_filter).drop
      offset_results).take limit_results

/-! ## Router and middleware wiring (main) -/

/-- Middleware stages installed by main, with the arguments each receives
at its construction site: middleware.Timeout(30 seconds), the CORS handler,
httprate.LimitByIP(100, one minute), middleware.JWTAuth(tokenAuth),
middleware.SetHeader(key, value). -/
inductive MwStage where
  | requestID : MwStage
  | realIP : MwStage
  | logger : MwStage
  | recoverer : MwStage
  | timeout (seconds : Nat) : MwStage
  | corsHandler : MwStage
  | rateLimitByIP (requestLimit : Nat) (windowSeconds : Nat) : MwStage
  | jwtAuth : MwStage
  | setHeader (key value : String) : MwStage
  deriving Repr, DecidableEq

/-- Process-wide resources constructed in main and handed to components as
constructor arguments. -/
inductive Resource where
  | postgresDB : Resource
  | redisClient : Resource
  | jwtTokenAuth : Resource
  deriving Repr, DecidableEq

/-- Resources received by each middleware stage at its construction site in
main: JWTAuth receives the token-auth object; every other stage is
constructed from literals (a duration, CORS options, a request limit and
window) and receives neither store client. -/
def stageResources : MwStage → List Resource
  | .jwtAuth => [.jwtTokenAuth]
  | _ => []

/-- The service constructors in main: NewUserService(db, redisClient),
NewProductService(db, redisClient), NewOrderService(db, redisClient),
NewSearchService(db, redisClient), NewNotificationService(db, redisClient). -/
inductive ServiceName where
  | userSvc | productSvc | orderSvc | searchSvc | notificationSvc
  deriving Repr, DecidableEq

/-- Every service receives both store adapters. -/
def serviceResources : ServiceName → List Resource :=
  fun _ => [.postgresDB, .redisClient]

/-- The root middleware chain of main, in registration order:
RequestID, RealIP, Logger, Recoverer, Timeout(30s), the CORS handler,
LimitByIP(100, 1 minute). -/
def mainMiddlewares : List MwStage :=
  [.requestID, .realIP, .logger, .recoverer, .timeout 30, .corsHandler,
   .rateLimitByIP 100 60]

/-- The chain seen by the protected route group: the root chain followed by
JWTAuth(tokenAuth) and SetHeader(Authorization, Bearer), in that order. -/
def protectedMiddlewares : List MwStage :=
  mainMiddlewares ++ [.jwtAuth, .setHeader "Authorization" "Bearer"]

/-- Chain execution: each stage either writes a response (short-circuit) or
passes the request on; when no stage answers, the handler runs. -/
def runChain {Req Resp : Type} (step : MwStage → Req → Option Resp)
    (chain : List MwStage) (handler : Req → Resp) (req : Req) : Resp :=
  match chain with
  | [] => handler req
  | s :: rest =>
    match step s req with
    | some resp => resp
    | none => runChain step rest handler req

/-- The stages a request actually reaches: every stage up to and including
the first one that short-circuits. -/
def executedStages {Req Resp : Type} (step : MwStage → Req → Option Resp)
    (chain : List MwStage) (req : Req) : List MwStage :=
  match chain with
  | [] => []
  | s :: rest =>
    match step s req with
    | some _ => [s]
    | none => s :: executedStages step rest req

/-- Routes registered in main: method, path, and whether the route lives in
the JWT-protected group. -/
structure Route where
  method : String
  path : String
  isProtected : Bool
  deriving Repr, DecidableEq

/-- The /health route, registered on the root router outside /api/v1 and
outside the protected group. -/
def healthRoute : Route :=
  { method := "GET", path := "/health", isProtected := false }

/-- The route table of main. -/
def routes : List Route :=
  [healthRoute,
   { method := "POST", path := "/api/v1/auth/register", isProtected := false },
   { method := "POST", path := "/api/v1/auth/login", isProtected := false },
   { method := "POST", path := "/api/v1/auth/refresh", isProtected := false },
   { method := "GET", path := "/api/v1/categories", isProtected := false },
   { method := "GET", path := "/api/v1/users/profile", isProtected := true },
   { method := "PUT", path := "/api/v1/users/profile", isProtected := true },
   { method := "GET", path := "/api/v1/users/preferences", isProtected := true },
   { method := "PUT", path := "/api/v1/users/preferences", isProtected := true },
   { method := "POST", path := "/api/v1/products", isProtected := true },
   { method := "GET", path := "/api/v1/products", isProtected := true },
   { method := "GET", path := "/api/v1/products/id", isProtected := true },
   { method := "PUT", path := "/api/v1/products/id", isProtected := true },
   { method := "DELETE", path := "/api/v1/products/id", isProtected := true },
   { method := "GET", path := "/api/v1/products/id/similar", isProtected := true },
   { method := "POST", path := "/api/v1/products/id/reviews", isProtected := true },
   { method := "GET", path := "/api/v1/products/id/reviews", isProtected := true },
   { method := "GET", path := "/api/v1/search", isProtected := true },
   { method := "POST", path := "/api/v1/search/semantic", isProtected := true },
   { method := "GET", path := "/api/v1/cart", isProtected := true },
   { method := "POST", path := "/api/v1/cart", isProtected := true },
   { method := "PUT", path := "/api/v1/cart/productId", isProtected := true },
   { method := "DELETE", path := "/api/v1/cart/productId", isProtected := true },
   { method := "GET", path := "/api/v1/wishlist", isProtected := true },
   { method := "POST", path := "/api/v1/wishlist/productId", isProtected := true },
   { method := "DELETE", path := "/api/v1/wishlist/productId", isProtected := true },
   { method := "POST", path := "/api/v1/orders", isProtected := true },
   { method := "GET", path := "/api/v1/orders", isProtected := true },
   { method := "GET", path := "/api/v1/orders/id", isProtected := true },
   { method := "PUT", path := "/api/v1/orders/id/status", isProtected := true },
   { method := "POST", path := "/api/v1/orders/id/payment", isProtected := true },
   { method := "GET", path := "/api/v1/notifications", isProtected := true },
   { method := "PUT", path := "/api/v1/notifications/id/read", isProtected := true },
   { method := "DELETE", path := "/api/v1/notifications/id", isProtected := true }]

/-- The middleware chain a route sees: protected routes get the JWT stages
appended, all others only the root chain. -/
def routeMiddlewares (r : Route) : List MwStage :=
  if r.isProtected then protectedMiddlewares else mainMiddlewares

/-! ## Health endpoint -/

/-- HTTP response model: status, content type, body. -/
structure HttpResponse where
  status : Nat
  contentType : String
  body : String
  deriving Repr, DecidableEq

/-- Body written by the /health handler; the braces of the JSON object are
escaped byte-for-byte. -/
def healthBody (now : String) : String :=
  "\x7b\"status\": \"healthy\", \"timestamp\": \"" ++ now ++ "\"\x7d"

/-- The inline /health handler of main: sets Content-Type and writes the
body; no explicit status write, so the server answers 200.  Its only input
is the current time — it closes over no service and no store client. -/
def healthHandler (now : String) : HttpResponse :=
  { status := 200, contentType := "application/json", body := healthBody now }

/-- Handler groups constructed in main and the resources each receives
(through its services); the /health closure receives none. -/
inductive HandlerName where
  | userHandler | productHandler | orderHandler | notificationHandler | healthHandler
  deriving Repr, DecidableEq

/-- Resources reachable from each handler at construction time, per the
constructor calls in main. -/
def handlerResources : HandlerName → List Resource
  | .userHandler => serviceResources .userSvc
  | .productHandler => serviceResources .productSvc ++ serviceResources .searchSvc
  | .orderHandler => serviceResources .orderSvc
  | .notificationHandler => serviceResources .notificationSvc
  | .healthHandler => []

/-! ## Rate limiting -/

/-- Request limit passed to httprate.LimitByIP in main. -/
def rateLimitRequestLimit : Nat := 100

/-- Window length passed to httprate.LimitByIP in main: one minute. -/
def rateLimitWindowSeconds : Nat := 60

/-- A request as the limiter sees it: resolved client IP and arrival time
in seconds. -/
structure RLRequest where
  ip : Nat
  time : Nat
  deriving Repr, DecidableEq

/-- Outcome of the rate-limiting stage for one request: pass it down the
chain, or answer 429 Too Many Requests. -/
inductive RLOutcome where
  | pass : RLOutcome
  | tooManyRequests : RLOutcome
  deriving Repr, DecidableEq

/-- Modelled from the spec: the internals of httprate.LimitByIP are not part
of this repository; only its call site with limit 100 and window one
minute is.  The spec describes the limiter as a per-IP counter over
60-second windows: the first 100 requests of an IP in a window pass, later
ones are answered 429. -/
def rlWindow (t : Nat) : Nat := t / rateLimitWindowSeconds

/-- Limiter state: a counter per (ip, window) key. -/
abbrev RLState := List ((Nat × Nat) × Nat)

/-- Counter for a key, zero when absent. -/
def rlLookup (st : RLState) (k : Nat × Nat) : Nat :=
  match st with
  | [] => 0
  | (k₂, v) :: rest => if k₂ = k then v else rlLookup rest k

/-- Store a counter value for a key, replacing an existing entry. -/
def rlStore (st : RLState) (k : Nat × Nat) (v : Nat) : RLState :=
  match st with
  | [] => [(k, v)]
  | (k₂, v₂) :: rest =>
    if k₂ = k then (k, v) :: rest else (k₂, v₂) :: rlStore rest k v

/-- One request through the limiter: below the limit the request passes and
the counter of its (ip, window) key is incremented atomically; at or above
the limit the request is answered 429 and the state is untouched. -/
def rlStep (st : RLState) (r : RLRequest) : RLOutcome × RLState :=
  let k := (r.ip, rlWindow r.time)
  let c := rlLookup st k
  if c < rateLimitRequestLimit then (.pass, rlStore st k (c + 1))
  else (.tooManyRequests, st)

/-- Run the limiter over a request sequence, returning the outcome of each
request in order. -/
def rlRun (st : RLState) : List RLRequest → List RLOutcome
  | [] => []
  | r :: rest =>
    let p := rlStep st r
    p.1 :: rlRun p.2 rest

/-! ## Cache-store adapter: command traces of the RedisClient wrappers -/

/-- Primitive commands of the cache store; incrCmd, decrCmd and expireCmd
are the atomic counter primitives (INCR, DECR, EXPIRE). -/
inductive RedisCmd where
  | getCmd (key : String) : RedisCmd
  | setCmd (key value : String) (ttlSeconds : Nat) : RedisCmd
  | delCmd (key : String) : RedisCmd
  | existsCmd (key : String) : RedisCmd
  | incrCmd (key : String) : RedisCmd
  | decrCmd (key : String) : RedisCmd
  | expireCmd (key : String) (seconds : Nat) : RedisCmd
  | ttlCmd (key : String) : RedisCmd
  | keysCmd (pat : String) : RedisCmd
  | flushDbCmd : RedisCmd
  | pingCmd : RedisCmd
  deriving Repr, DecidableEq

/-- Commands issued by RedisClient.Increment: a single Incr call. -/
def RedisClient.Increment (key : String) : List RedisCmd :=
  [.incrCmd key]

/-- Commands issued by RedisClient.Decrement: a single Decr call. -/
def RedisClient.Decrement (key : String) : List RedisCmd :=
  [.decrCmd key]

/-- Commands issued by RedisClient.SetExpiration: a single Expire call. -/
def RedisClient.SetExpiration (key : String) (seconds : Nat) : List RedisCmd :=
  [.expireCmd key seconds]

/-- Commands issued by RedisClient.Get: a single Get call. -/
def RedisClient.Get (key : String) : List RedisCmd :=
  [.getCmd key]

/-- Commands issued by RedisClient.Set: a single Set call without
expiration. -/
def RedisClient.Set (key value : String) : List RedisCmd :=
  [.setCmd key value 0]

/-- Commands issued by RedisClient.SetWithExpiration: a single Set call
with an expiration. -/
def RedisClient.SetWithExpiration (key value : String) (seconds : Nat) : List RedisCmd :=
  [.setCmd key value seconds]

/-- Commands issued by RedisClient.Delete: a single Del call. -/
def RedisClient.Delete (key : String) : List RedisCmd :=
  [.delCmd key]

/-- Read commands of the store. -/
def RedisCmd.isRead : RedisCmd → Bool
  | .getCmd _ => true
  | .existsCmd _ => true
  | .ttlCmd _ => true
  | .keysCmd _ => true
  | _ => false

/-- Plain overwrites of a value (the non-atomic half of a read-then-write
pattern). -/
def RedisCmd.isPlainWrite : RedisCmd → Bool
  | .setCmd _ _ _ => true
  | _ => false

/-- A trace exhibits read-then-write when some read is later followed by a
plain overwrite. -/
def readThenWrite : List RedisCmd → Bool
  | [] => false
  | c :: rest => (c.isRead && rest.any (·.isPlainWrite)) || readThenWrite rest

/-! ## User registration at the stored schema: UNIQUE(email), UNIQUE(username) -/

/-- Uniqueness violations surfaced by an INSERT into users. -/
inductive RegistrationError where
  | duplicateEmail : RegistrationError
  | duplicateUsername : RegistrationError
  deriving Repr, DecidableEq

/-- INSERT of a users row under the UNIQUE constraints of the users table.
Postgres compares VARCHAR values byte for byte, so the checks are exact
string equality.  On a violation the stored list is returned unchanged
together with the conflict; otherwise the row is appended. -/
def registerUser (users : List UserRow) (u : UserRow) :
    List UserRow × Option RegistrationError :=
  if users.any fun v => v.email == u.email then
    (users, some .duplicateEmail)
  else if users.any fun v => v.username == u.username then
    (users, some .duplicateUsername)
  else
    (users ++ [u], none)

/-! ## Startup: NewPostgresDB, NewRedisClient and main -/

/-- Result of process startup: a fatal log-and-exit at some stage, or a
running server. -/
inductive StartupOutcome where
  | fatalExit (message : String) : StartupOutcome
  | serving : StartupOutcome
  deriving Repr, DecidableEq

/-- NewPostgresDB: opens the connection, configures the pool, then pings;
an open or ping failure is returned as an error and no adapter is
produced. -/
def NewPostgresDB (openOk pingOk : Bool) : Except String Unit :=
  if !openOk then .error "failed to open database connection"
  else if !pingOk then .error "failed to ping database"
  else .ok ()

/-- NewRedisClient: builds the client, then pings with a 5-second budget;
a ping failure is returned as an error and no adapter is produced. -/
def NewRedisClient (pingOk : Bool) : Except String Unit :=
  if !pingOk then .error "failed to ping Redis"
  else .ok ()

/-- The startup sequence of main: load configuration, construct the
Postgres adapter, construct the Redis adapter; each error is passed to
log.Fatal, which exits the process; only when every step succeeds does the
router get built and the server start serving. -/
def mainStartup (configOk dbOpenOk dbPingOk redisPingOk : Bool) : StartupOutcome :=
  if !configOk then .fatalExit "Failed to load configuration"
  else
    match NewPostgresDB dbOpenOk dbPingOk with
    | .error _ => .fatalExit "Failed to connect to database"
    | .ok _ =>
      match NewRedisClient redisPingOk with
      | .error _ => .fatalExit "Failed to connect to Redis"
      | .ok _ => .serving

/-! ## Product row deletion under the foreign keys of the schema -/

/-- Relational-store state over the tables touched by a product delete. -/
structure DBState where
  users : List UserRow
  products : List ProductRow
  product_embeddings : List ProductEmbeddingRow
  reviews : List ReviewRow
  order_items : List OrderItemRow
  cart : List CartRow
  wishlist : List WishlistRow
  deriving Repr, DecidableEq

/-- A DELETE blocked by a referencing row in a table without ON DELETE
CASCADE. -/
inductive DeleteError where
  | foreignKeyViolation (tableName : String) : DeleteError
  deriving Repr, DecidableEq

/-- DELETE FROM products WHERE id = pid under the foreign keys of the
schema: order_items.product_id and cart.product_id reference products
without a cascade, so a referencing row blocks the delete;
product_embeddings.product_id, reviews.product_id and wishlist.product_id
are declared ON DELETE CASCADE, so their rows are removed with the
product. -/
def deleteProductRow (s : DBState) (pid : Nat) : Except DeleteError DBState :=
  if s.order_items.any fun oi => oi.product_id == pid then
    .error (.foreignKeyViolation "order_items")
  else if s.cart.any fun ci => ci.product_id == pid then
    .error (.foreignKeyViolation "cart")
  else
    .ok { s with
      products := s.products.filter fun p => p.id != pid
      product_embeddings := s.product_embeddings.filter fun e => e.product_id != pid
      reviews := s.reviews.filter fun r => r.product_id != pid
      wishlist := s.wishlist.filter fun w => w.product_id != pid }

/-! ## The updated_at triggers -/

/-- Tables of the schema. -/
inductive SchemaTable where
  | users | categories | products | productEmbeddings | reviews | orders
  | orderItems | cart | wishlist | notifications | userPreferences
  deriving Repr, DecidableEq

/-- The six CREATE TRIGGER statements attach update_updated_at_column
BEFORE UPDATE to exactly these tables. -/
def updatedAtTriggerTables : List SchemaTable :=
  [.users, .products, .reviews, .orders, .cart, .userPreferences]

/-- A row of a table carrying an updated_at column, its other columns
abstracted to a payload. -/
structure TriggeredRow (α : Type) where
  fields : α
  updated_at : Nat
  deriving Repr, DecidableEq

/-- The trigger function update_updated_at_column: NEW.updated_at = NOW();
RETURN NEW. -/
def update_updated_at_column {α : Type} (now : Nat) (row : TriggeredRow α) :
    TriggeredRow α :=
  { row with updated_at := now }

/-- An UPDATE of one row of a table at time now: the statement produces the
NEW row; on a table with the BEFORE UPDATE trigger, the trigger function
then overwrites NEW.updated_at with NOW() before the row is stored. -/
def applyRowUpdate {α : Type} (tbl : SchemaTable) (now : Nat)
    (upd : TriggeredRow α → TriggeredRow α) (row : TriggeredRow α) : TriggeredRow α :=
  let newRow := upd row
  if tbl ∈ updatedAtTriggerTables then update_updated_at_column now newRow
  else newRow

/-! ## Concrete fixtures used by witnesses and counterexamples -/

/-- A stand-in embedding provider for concrete evaluation. -/
def embedOne : String → List Rat := fun _ => [1]

/-- A stand-in distance metric for concrete evaluation: the leading
coordinate of the stored vector (kernel-reducible, no Rat normalisation). -/
def distHead : List Rat → List Rat → Rat := fun v _ => v.headD 0

/-- ASCII lowercasing of one character, used to state case-insensitive
string equality executably. -/
def lowerChar (c : Char) : Char :=
  if 65 ≤ c.toNat ∧ c.toNat ≤ 90 then Char.ofNat (c.toNat + 32) else c

/-- ASCII lowercasing of a string, as its character list. -/
def lowerStr (s : String) : List Char := s.data.map lowerChar

/-- An ordinary live product. -/
def prodA : ProductRow :=
  { id := 1, seller_id := 10, category_id := some 3, title := "a"
    description := "da", price := 5, stock_quantity := 2, is_featured := false
    is_active := true, updated_at := 0, deleted_at := none }

/-- A product whose soft-delete timestamp is set while its is_active flag
is still true. -/
def prodGhost : ProductRow :=
  { id := 2, seller_id := 10, category_id := some 3, title := "g"
    description := "dg", price := 7, stock_quantity := 1, is_featured := false
    is_active := true, updated_at := 0, deleted_at := some 5 }

/-- An inactive product. -/
def prodInactive : ProductRow :=
  { id := 3, seller_id := 11, category_id := some 4, title := "i"
    description := "di", price := 9, stock_quantity := 0, is_featured := false
    is_active := false, updated_at := 0, deleted_at := none }

/-- Embedding row for prodA. -/
def embA : ProductEmbeddingRow :=
  { product_id := 1, title_embedding := [], description_embedding := []
    combined_embedding := [2], updated_at := 0 }

/-- Embedding row for prodGhost. -/
def embGhost : ProductEmbeddingRow :=
  { product_id := 2, title_embedding := [], description_embedding := []
    combined_embedding := [4], updated_at := 0 }

/-- Embedding row for prodInactive. -/
def embInactive : ProductEmbeddingRow :=
  { product_id := 3, title_embedding := [], description_embedding := []
    combined_embedding := [3], updated_at := 0 }

/-- The search row produced for prodA by the stand-in provider and metric. -/
def rowA : SemanticSearchRow := semanticScore embedOne distHead "q" (prodA, embA)

/-- First registered user. -/
def alice : UserRow :=
  { id := 1, email := "alice@example.com", username := "alice"
    password_hash := "h1", is_active := true }

/-- Second registration whose email differs from alice only in letter case
and whose username is fresh. -/
def aliceCased : UserRow :=
  { id := 2, email := "Alice@example.com", username := "bob"
    password_hash := "h2", is_active := true }

/-- Second registration with a byte-identical email and a fresh username. -/
def aliceDupEmail : UserRow :=
  { id := 3, email := "alice@example.com", username := "carol"
    password_hash := "h3", is_active := true }

/-- Store state holding one product with its embedding and no referencing
order_items or cart rows. -/
def dbS0 : DBState :=
  { users := [], products := [prodA], product_embeddings := [embA]
    reviews := [], order_items := [], cart := [], wishlist := [] }

/-- The state produced by deleting product 1 from dbS0. -/
def dbS1 : DBState :=
  { users := [], products := [], product_embeddings := []
    reviews := [], order_items := [], cart := [], wishlist := [] }

/-- An update statement that even attempts to set updated_at to an old
value. -/
def updFixture : TriggeredRow Nat → TriggeredRow Nat :=
  fun r => { fields := r.fields + 1, updated_at := 0 }

/-! # Theorems -/

/-! ## Helper lemmas: semantic search pipeline -/

/-- Membership in the products-embeddings join. -/
theorem mem_semanticJoin {products : List ProductRow}
    {embeddings : List ProductEmbeddingRow} {pr : ProductRow × ProductEmbeddingRow} :
    pr ∈ semanticJoin products embeddings ↔
      pr.1 ∈ products ∧ pr.2 ∈ embeddings ∧ pr.2.product_id = pr.1.id := by
  obtain ⟨p, pe⟩ := pr
  simp only [semanticJoin, List.mem_flatMap, List.mem_map, List.mem_filter, beq_iff_eq,
    Prod.mk.injEq]
  constructor
  · rintro ⟨a, ha, x, ⟨hx, hid⟩, rfl, rfl⟩
    exact ⟨ha, hx, hid⟩
  · rintro ⟨hp, hpe, hid⟩
    exact ⟨p, hp, pe, ⟨hpe, hid⟩, rfl, rfl⟩

/-- Unfolding of the join on a cons cell. -/
theorem semanticJoin_cons (p : ProductRow) (ps : List ProductRow)
    (es : List ProductEmbeddingRow) :
    semanticJoin (p :: ps) es =
      ((es.filter fun pe => pe.product_id == p.id).map fun pe => (p, pe)) ++
        semanticJoin ps es := by
  simp [semanticJoin]

/-- The WHERE clause, spelled out. -/
theorem semanticKeep_iff {cat : Option Nat} {p : ProductRow} :
    semanticKeep cat p = true ↔
      p.is_active = true ∧ (cat = none ∨ p.category_id = cat) := by
  cases cat with
  | none => simp [semanticKeep]
  | some c => simp [semanticKeep]

/-- Membership in the ranked result. -/
theorem mem_semanticRank {embed : String → List Rat} {dist : List Rat → List Rat → Rat}
    {products : List ProductRow} {embeddings : List ProductEmbeddingRow}
    {q : String} {cat : Option Nat} {row : SemanticSearchRow} :
    row ∈ semanticRank embed dist products embeddings q cat ↔
      ∃ p pe, p ∈ products ∧ pe ∈ embeddings ∧ pe.product_id = p.id ∧
        semanticKeep cat p = true ∧ row = semanticScore embed dist q (p, pe) := by
  unfold semanticRank
  rw [List.mem_insertionSort]
  simp only [List.mem_map, List.mem_filter, mem_semanticJoin]
  constructor
  · rintro ⟨⟨p, pe⟩, ⟨⟨hp, hpe, hid⟩, hkeep⟩, rfl⟩
    exact ⟨p, pe, hp, hpe, hid, hkeep, rfl⟩
  · rintro ⟨p, pe, hp, hpe, hid, hkeep, rfl⟩
    exact ⟨(p, pe), ⟨⟨hp, hpe, hid⟩, hkeep⟩, rfl⟩

/-- A paginated row is a ranked row. -/
theorem mem_of_mem_search_products_semantic {embed : String → List Rat}
    {dist : List Rat → List Rat → Rat} {products : List ProductRow}
    {embeddings : List ProductEmbeddingRow} {q : String} {cat : Option Nat}
    {lim off : Nat} {row : SemanticSearchRow}
    (h : row ∈ search_products_semantic embed dist products embeddings q cat lim off) :
    row ∈ semanticRank embed dist products embeddings q cat := by
  unfold search_products_semantic at h
  exact List.drop_subset _ _ (List.take_subset _ _ h)

/-- The paginated result stays sorted by ascending distance. -/
theorem sorted_search_products_semantic (embed : String → List Rat)
    (dist : List Rat → List Rat → Rat) (products : List ProductRow)
    (embeddings : List ProductEmbeddingRow) (q : String) (cat : Option Nat)
    (lim off : Nat) :
    (search_products_semantic embed dist products embeddings q cat lim off).Sorted simLE := by
  have hs : (semanticRank embed dist products embeddings q cat).Sorted simLE :=
    List.sorted_insertionSort simLE _
  have hsub : List.Sublist
      (search_products_semantic embed dist products embeddings q cat lim off)
      (semanticRank embed dist products embeddings q cat) := by
    unfold search_products_semantic
    exact (List.take_sublist _ _).trans (List.drop_sublist _ _)
  exact List.Pairwise.sublist hsub hs

/-- The join does not look at deleted_at. -/
theorem semanticJoin_set_deleted (d : Option Nat) (products : List ProductRow)
    (embeddings : List ProductEmbeddingRow) :
    semanticJoin (products.map fun x => { x with deleted_at := d }) embeddings =
      (semanticJoin products embeddings).map fun pr =>
        ({ pr.1 with deleted_at := d }, pr.2) := by
  induction products with
  | nil => rfl
  | cons p ps ih =>
    rw [List.map_cons, semanticJoin_cons, semanticJoin_cons, ih, List.map_append,
      List.map_map]
    rfl

/-- The ranked result does not look at deleted_at. -/
theorem semanticRank_set_deleted (embed : String → List Rat)
    (dist : List Rat → List Rat → Rat) (products : List ProductRow)
    (embeddings : List ProductEmbeddingRow) (q : String) (cat : Option Nat)
    (d : Option Nat) :
    semanticRank embed dist (products.map fun x => { x with deleted_at := d })
        embeddings q cat =
      semanticRank embed dist products embeddings q cat := by
  unfold semanticRank
  rw [semanticJoin_set_deleted, List.filter_map, List.map_map]
  rfl

/-! ## Helper lemmas: middleware chain execution -/

/-- When no stage answers, the request reaches the handler. -/
theorem runChain_all_none {Req Resp : Type} (step : MwStage → Req → Option Resp)
    (chain : List MwStage) (handler : Req → Resp) (req : Req)
    (h : ∀ s ∈ chain, step s req = none) :
    runChain step chain handler req = handler req := by
  induction chain with
  | nil => rfl
  | cons s rest ih =>
    rw [runChain, h s (List.mem_cons_self s rest)]
    exact ih fun x hx => h x (List.mem_cons_of_mem s hx)

/-- When no stage answers, every stage of the chain is executed, in chain
order. -/
theorem executedStages_all_none {Req Resp : Type} (step : MwStage → Req → Option Resp)
    (chain : List MwStage) (req : Req)
    (h : ∀ s ∈ chain, step s req = none) :
    executedStages step chain req = chain := by
  induction chain with
  | nil => rfl
  | cons s rest ih =>
    rw [executedStages, h s (List.mem_cons_self s rest)]
    rw [ih fun x hx => h x (List.mem_cons_of_mem s hx)]

/-- The executed stages always form an initial segment of the chain: a
stage that answers keeps all later stages from running. -/
theorem executedStages_eq_take {Req Resp : Type} (step : MwStage → Req → Option Resp)
    (chain : List MwStage) (req : Req) :
    ∃ k, executedStages step chain req = chain.take k := by
  induction chain with
  | nil => exact ⟨0, rfl⟩
  | cons s rest ih =>
    cases hs : step s req with
    | some resp => exact ⟨1, by rw [executedStages, hs]; simp⟩
    | none =>
      obtain ⟨k, hk⟩ := ih
      exact ⟨k + 1, by rw [executedStages, hs, hk]; rfl⟩

/-- A stage that answers short-circuits: its response is the response of
the whole chain. -/
theorem runChain_shortCircuit {Req Resp : Type} (step : MwStage → Req → Option Resp)
    (handler : Req → Resp) (req : Req) (s : MwStage) (rest : List MwStage) (resp : Resp)
    (h : step s req = some resp) :
    runChain step (s :: rest) handler req = resp := by
  rw [runChain, h]

/-! ## Helper lemmas: rate limiter -/

/-- One request from the tracked key against a single-counter state. -/
theorem rlStep_key (ip w c : Nat) (r : RLRequest) (hip : r.ip = ip)
    (hw : rlWindow r.time = w) :
    rlStep [((ip, w), c)] r =
      if c < rateLimitRequestLimit then (RLOutcome.pass, [((ip, w), c + 1)])
      else (RLOutcome.tooManyRequests, [((ip, w), c)]) := by
  simp [rlStep, rlLookup, rlStore, hip, hw]

/-- Unfolding of the limiter run on a cons cell. -/
theorem rlRun_cons (st : RLState) (r : RLRequest) (rest : List RLRequest) :
    rlRun st (r :: rest) = (rlStep st r).1 :: rlRun (rlStep st r).2 rest := rfl

/-- The first request of a key creates its counter at one and passes. -/
theorem rlStep_empty (r : RLRequest) :
    rlStep [] r = (RLOutcome.pass, [((r.ip, rlWindow r.time), 1)]) := by
  simp [rlStep, rlLookup, rlStore, rateLimitRequestLimit]

/-- Running the limiter over same-key requests from a counter at c: the
first limit-minus-c requests pass, the rest are answered 429. -/
theorem rlRun_single_key (ip w : Nat) :
    ∀ (reqs : List RLRequest) (c : Nat),
      (∀ r ∈ reqs, r.ip = ip ∧ rlWindow r.time = w) →
      rlRun [((ip, w), c)] reqs =
        List.replicate (min reqs.length (rateLimitRequestLimit - c)) RLOutcome.pass ++
          List.replicate (reqs.length - (rateLimitRequestLimit - c))
            RLOutcome.tooManyRequests
  | [], c, _ => by simp [rlRun]
  | r :: rest, c, h => by
    obtain ⟨hip, hw⟩ := h r (List.mem_cons_self r rest)
    have hrest : ∀ x ∈ rest, x.ip = ip ∧ rlWindow x.time = w :=
      fun x hx => h x (List.mem_cons_of_mem r hx)
    rw [rlRun_cons, rlStep_key ip w c r hip hw]
    by_cases hc : c < rateLimitRequestLimit
    · rw [if_pos hc, rlRun_single_key ip w rest (c + 1) hrest]
      have h1 : min (rest.length + 1) (rateLimitRequestLimit - c)
          = min rest.length (rateLimitRequestLimit - (c + 1)) + 1 := by omega
      have h2 : (rest.length + 1) - (rateLimitRequestLimit - c)
          = rest.length - (rateLimitRequestLimit - (c + 1)) := by omega
      simp [List.length_cons, h1, h2, List.replicate_succ]
    · rw [if_neg hc, rlRun_single_key ip w rest c hrest]
      have h0 : rateLimitRequestLimit - c = 0 := by omega
      simp [h0, List.replicate_succ]

/-! ## Claim C1 -/

/-- Claim C1: every row returned by a semantic search call comes from an
active product that matches the category filter when one is given and that
has a stored combined embedding (the join excludes products without an
embedding row); the result is ranked nearest-first, ascending in the
distance between each stored combined embedding and the embedding computed
from the query text; and it is the offset/limit page of that ranking, hence
holds at most limit_results rows. -/
theorem semantic_search_correct (embed : String → List Rat)
    (dist : List Rat → List Rat → Rat) (products : List ProductRow)
    (embeddings : List ProductEmbeddingRow) (query_text : String)
    (category_filter : Option Nat) (limit_results offset_results : Nat) :
    (∀ row ∈ search_products_semantic embed dist products embeddings query_text
        category_filter limit_results offset_results,
      ∃ p ∈ products, ∃ pe ∈ embeddings,
        pe.product_id = p.id ∧ p.is_active = true ∧
        (category_filter = none ∨ p.category_id = category_filter) ∧
        row = semanticScore embed dist query_text (p, pe)) ∧
    (search_products_semantic embed dist products embeddings query_text category_filter
        limit_results offset_results).Sorted simLE ∧
    search_products_semantic embed dist products embeddings query_text category_filter
        limit_results offset_results =
      ((semanticRank embed dist products embeddings query_text category_filter).drop
          offset_results).take limit_results ∧
    (search_products_semantic embed dist products embeddings query_text category_filter
        limit_results offset_results).length ≤ limit_results := by
  refine ⟨?_, sorted_search_products_semantic _ _ _ _ _ _ _ _, rfl, ?_⟩
  · intro row hrow
    obtain ⟨p, pe, hp, hpe, hid, hkeep, hrow2⟩ :=
      mem_semanticRank.1 (mem_of_mem_search_products_semantic hrow)
    obtain ⟨hact, hcat⟩ := semanticKeep_iff.1 hkeep
    exact ⟨p, hp, pe, hpe, hid, hact, hcat, hrow2⟩
  · exact List.length_take_le _ _

/-- Claim C1 witness: the theorem applied to a concrete catalogue and the
concrete row returned for product 1. -/
theorem semantic_search_correct_witness :
    ∃ p ∈ [prodA, prodGhost, prodInactive], ∃ pe ∈ [embA, embGhost, embInactive],
      pe.product_id = p.id ∧ p.is_active = true ∧
      ((none : Option Nat) = none ∨ p.category_id = none) ∧
      rowA = semanticScore embedOne distHead "q" (p, pe) :=
  (semantic_search_correct embedOne distHead [prodA, prodGhost, prodInactive]
      [embA, embGhost, embInactive] "q" none 10 0).1 rowA (by decide)

/-! ## Claim C2 -/

/-- Claim C2 (limiter internals modelled from the spec; the limit 100 and
window 60 seconds come from the httprate.LimitByIP call in main): among
the requests of one client IP that fall into one 60-second window, each of
the first 100 passes the rate-limiting stage and every subsequent one is
answered 429 Too Many Requests. -/
theorem rate_limit_first_hundred (reqs : List RLRequest) (ip w : Nat)
    (h : ∀ r ∈ reqs, r.ip = ip ∧ rlWindow r.time = w) :
    rlRun [] reqs =
      List.replicate (min reqs.length rateLimitRequestLimit) RLOutcome.pass ++
        List.replicate (reqs.length - rateLimitRequestLimit)
          RLOutcome.tooManyRequests := by
  cases reqs with
  | nil => simp [rlRun]
  | cons r rest =>
    obtain ⟨hip, hw⟩ := h r (List.mem_cons_self r rest)
    have hrest : ∀ x ∈ rest, x.ip = ip ∧ rlWindow x.time = w :=
      fun x hx => h x (List.mem_cons_of_mem r hx)
    rw [rlRun_cons, rlStep_empty, hip, hw]
    dsimp only
    rw [rlRun_single_key ip w rest 1 hrest]
    simp only [rateLimitRequestLimit, List.length_cons]
    have h1 : min (rest.length + 1) 100 = min rest.length (100 - 1) + 1 := by omega
    have h2 : rest.length + 1 - 100 = rest.length - (100 - 1) := by omega
    rw [h1, h2, List.replicate_succ]
    rfl

/-- Claim C2 witness: 101 requests of IP 7 inside the first window; the
first 100 pass and the 101st is answered 429. -/
theorem rate_limit_first_hundred_witness :
    rlRun [] (List.replicate 101 ⟨7, 30⟩) =
      List.replicate 100 RLOutcome.pass ++ [RLOutcome.tooManyRequests] := by
  have h := rate_limit_first_hundred (List.replicate 101 ⟨7, 30⟩) 7 0 ?hx
  case hx =>
    intro r hr
    have hr2 := List.eq_of_mem_replicate hr
    subst hr2
    exact ⟨rfl, rfl⟩
  simpa [rateLimitRequestLimit] using h

/-! ## Claim C3 -/

/-- Claim C3 counterexample: the rate-limiting stage installed by main is
constructed from the literals 100 and one minute alone, and no stage of the
root middleware chain receives the Redis client, so the limiter counters do
not live in the cache store. -/
theorem rate_limit_counters_counterexample :
    MwStage.rateLimitByIP 100 60 ∈ mainMiddlewares ∧
    stageResources (MwStage.rateLimitByIP 100 60) = [] ∧
    (mainMiddlewares.flatMap stageResources).contains Resource.redisClient = false := by
  decide

/-- Claim C3 amended: the rate limiter holds its counters itself — it is
built from a request limit and a window only, and no middleware stage is
handed the Redis client (the services are); the cache-store adapter does
expose atomic counter primitives: Increment, Decrement and SetExpiration
each issue exactly one atomic store command (INCR, DECR, EXPIRE) and never
a read followed by a plain write. -/
theorem rate_limit_counters_amended (key : String) (seconds : Nat) :
    MwStage.rateLimitByIP rateLimitRequestLimit rateLimitWindowSeconds ∈
      mainMiddlewares ∧
    (mainMiddlewares.flatMap stageResources).all
      (fun res => res != Resource.redisClient) = true ∧
    serviceResources ServiceName.userSvc = [Resource.postgresDB, Resource.redisClient] ∧
    RedisClient.Increment key = [RedisCmd.incrCmd key] ∧
    RedisClient.Decrement key = [RedisCmd.decrCmd key] ∧
    RedisClient.SetExpiration key seconds = [RedisCmd.expireCmd key seconds] ∧
    readThenWrite (RedisClient.Increment key) = false ∧
    readThenWrite (RedisClient.SetExpiration key seconds) = false := by
  refine ⟨by decide, by decide, rfl, rfl, rfl, rfl, rfl, rfl⟩

/-- Claim C3 amended witness: the theorem applied to a concrete counter
key. -/
theorem rate_limit_counters_amended_witness :
    RedisClient.Increment "ratelimit:7" = [RedisCmd.incrCmd "ratelimit:7"] :=
  (rate_limit_counters_amended "ratelimit:7" 60).2.2.2.1

/-! ## Claim C4 -/

/-- Claim C4 counterexample: the users table constrains email by exact,
case-sensitive uniqueness; a second registration whose email equals the
first only case-insensitively succeeds and extends the stored set. -/
theorem register_case_insensitive_counterexample :
    lowerStr alice.email = lowerStr aliceCased.email ∧
    (alice.email == aliceCased.email) = false ∧
    registerUser [alice] aliceCased = ([alice, aliceCased], none) := by
  decide

/-- Claim C4 amended: email uniqueness is exact, not case-insensitive: a
second registration whose email is byte-identical to a stored email fails
with the duplicate-email conflict regardless of its username, and the
stored set of users is unchanged by the failed call. -/
theorem register_duplicate_email_conflict (users : List UserRow) (u : UserRow)
    (h : ∃ v ∈ users, v.email = u.email) :
    registerUser users u = (users, some RegistrationError.duplicateEmail) := by
  obtain ⟨v, hv, he⟩ := h
  have hany : (users.any fun w => w.email == u.email) = true :=
    List.any_eq_true.2 ⟨v, hv, by simp [he]⟩
  simp [registerUser, hany]

/-- Claim C4 amended witness: registering carol with the byte-identical
email after alice. -/
theorem register_duplicate_email_conflict_witness :
    registerUser [alice] aliceDupEmail =
      ([alice], some RegistrationError.duplicateEmail) :=
  register_duplicate_email_conflict [alice] aliceDupEmail
    ⟨alice, List.mem_cons_self _ _, rfl⟩

/-! ## Claim C5 -/

/-- Claim C5 counterexample: a product whose soft-delete timestamp is set
while its is_active flag is still true is returned by semantic search; the
exclusion predicate of the query is the is_active flag together with the
embedding join, not the deleted_at marker. -/
theorem soft_delete_counterexample :
    prodGhost.deleted_at = some 5 ∧ prodGhost.is_active = true ∧
    (search_products_semantic embedOne distHead [prodA, prodGhost, prodInactive]
        [embA, embGhost, embInactive] "q" none 10 0).map
      (fun r => r.product_id) = [1, 2] := by
  decide

/-- Claim C5 amended: semantic search excludes every product whose
is_active flag is false (given distinct product ids), and its result is
invariant under any change of the deleted_at column alone — so soft-deleted
products are excluded exactly insofar as deletion also clears is_active. -/
theorem soft_delete_exclusion_amended :
    (∀ (embed : String → List Rat) (dist : List Rat → List Rat → Rat)
        (products : List ProductRow) (embeddings : List ProductEmbeddingRow)
        (q : String) (cat : Option Nat) (lim off : Nat) (p : ProductRow),
      (products.map fun x => x.id).Nodup → p ∈ products → p.is_active = false →
        ∀ row ∈ search_products_semantic embed dist products embeddings q cat lim off,
          row.product_id ≠ p.id) ∧
    (∀ (embed : String → List Rat) (dist : List Rat → List Rat → Rat)
        (products : List ProductRow) (embeddings : List ProductEmbeddingRow)
        (q : String) (cat : Option Nat) (lim off : Nat) (d : Option Nat),
      search_products_semantic embed dist
          (products.map fun x => { x with deleted_at := d }) embeddings q cat lim off =
        search_products_semantic embed dist products embeddings q cat lim off) := by
  constructor
  · intro embed dist products embeddings q cat lim off p hnd hp hina row hrow hid
    obtain ⟨p2, pe, hp2, hpe, hpid, hkeep, hrow2⟩ :=
      mem_semanticRank.1 (mem_of_mem_search_products_semantic hrow)
    have hact : p2.is_active = true := (semanticKeep_iff.1 hkeep).1
    rw [hrow2] at hid
    have hpp : p2 = p := List.inj_on_of_nodup_map hnd hp2 hp hid
    rw [hpp, hina] at hact
    exact Bool.noConfusion hact
  · intro embed dist products embeddings q cat lim off d
    unfold search_products_semantic
    rw [semanticRank_set_deleted]

/-- Claim C5 amended witness: the theorem applied to a concrete catalogue
holding an active and an inactive product. -/
theorem soft_delete_exclusion_amended_witness :
    rowA.product_id ≠ prodInactive.id :=
  soft_delete_exclusion_amended.1 embedOne distHead [prodA, prodInactive]
    [embA, embInactive] "q" none 10 0 prodInactive (by decide) (by decide) rfl rowA
    (by decide)

/-! ## Claim C6 -/

/-- Claim C6 counterexample: JWT verification is not the final stage of the
protected chain — the SetHeader(Authorization, Bearer) stage is registered
after it. -/
theorem jwt_not_final_stage_counterexample :
    protectedMiddlewares.getLast? =
      some (MwStage.setHeader "Authorization" "Bearer") ∧
    (protectedMiddlewares.getLast? == some MwStage.jwtAuth) = false ∧
    MwStage.jwtAuth ∈ protectedMiddlewares := by
  decide

/-- Claim C6 amended: every request passes request-ID tagging, real-IP
resolution, access logging, panic recovery, the 30-second timeout, CORS and
per-IP rate limiting in this fixed order before its handler; protected
routes append JWT verification and then a header-setting stage, so JWT
verification is the penultimate stage; a stage that writes a response
short-circuits the chain, and the executed stages always form an initial
segment of the chain. -/
theorem middleware_chain_order :
    mainMiddlewares =
      [MwStage.requestID, MwStage.realIP, MwStage.logger, MwStage.recoverer,
       MwStage.timeout 30, MwStage.corsHandler, MwStage.rateLimitByIP 100 60] ∧
    protectedMiddlewares =
      mainMiddlewares ++
        [MwStage.jwtAuth, MwStage.setHeader "Authorization" "Bearer"] ∧
    (∀ (Req Resp : Type) (step : MwStage → Req → Option Resp) (handler : Req → Resp)
        (req : Req),
      (∀ s ∈ protectedMiddlewares, step s req = none) →
        runChain step protectedMiddlewares handler req = handler req ∧
        executedStages step protectedMiddlewares req =
          protectedMiddlewares) ∧
    (∀ (Req Resp : Type) (step : MwStage → Req → Option Resp) (handler : Req → Resp)
        (req : Req) (s : MwStage) (rest : List MwStage) (resp : Resp),
      step s req = some resp → runChain step (s :: rest) handler req = resp) ∧
    (∀ (Req Resp : Type) (step : MwStage → Req → Option Resp) (req : Req),
      ∃ k, executedStages step protectedMiddlewares req =
        protectedMiddlewares.take k) := by
  refine ⟨rfl, rfl, ?_, ?_, ?_⟩
  · intro Req Resp step handler req h
    exact ⟨runChain_all_none step _ handler req h,
      executedStages_all_none step _ req h⟩
  · intro Req Resp step handler req s rest resp h
    exact runChain_shortCircuit step handler req s rest resp h
  · intro Req Resp step req
    exact executedStages_eq_take step _ req

/-- Claim C6 amended witness: with no stage answering, a request runs the
whole protected chain and reaches the handler. -/
theorem middleware_chain_order_witness :
    runChain (fun _ _ => (none : Option Nat)) protectedMiddlewares
      (fun n => n + 1) 0 = 1 :=
  (middleware_chain_order.2.2.1 Nat Nat (fun _ _ => none) (fun n => n + 1) 0
    (fun _ _ => rfl)).1

/-! ## Claim C7 -/

/-- Claim C7: construction of each store adapter verifies connectivity with
a ping and returns an error on failure, and main treats a failed
construction as fatal: with either store unreachable, startup never
reaches the serving state. -/
theorem startup_connectivity_fatal (configOk dbOpenOk dbPingOk redisPingOk : Bool)
    (h : dbPingOk = false ∨ redisPingOk = false) :
    (NewPostgresDB dbOpenOk false).isOk = false ∧
    (NewRedisClient false).isOk = false ∧
    mainStartup configOk dbOpenOk dbPingOk redisPingOk ≠ StartupOutcome.serving := by
  revert h
  revert configOk dbOpenOk dbPingOk redisPingOk
  decide

/-- Claim C7 witness: the database ping failing with everything else
healthy keeps the process from serving. -/
theorem startup_connectivity_fatal_witness :
    mainStartup true true false true ≠ StartupOutcome.serving :=
  (startup_connectivity_fatal true true false true (Or.inl rfl)).2.2

/-! ## Claim C8 -/

/-- Claim C8: when a product row delete completes, the ON DELETE CASCADE on
product_embeddings.product_id removes the embedding rows of that product:
no embedding row for the product remains, and the product row itself is
gone. -/
theorem delete_product_cascades_embeddings (s : DBState) (pid : Nat) (s2 : DBState)
    (h : deleteProductRow s pid = Except.ok s2) :
    (s2.product_embeddings.all fun e => e.product_id != pid) = true ∧
    (s2.products.all fun p => p.id != pid) = true := by
  unfold deleteProductRow at h
  split at h
  · simp at h
  · split at h
    · simp at h
    · injection h with h2
      subst h2
      constructor
      · simp only [List.all_eq_true, List.mem_filter]
        intro e he
        exact he.2
      · simp only [List.all_eq_true, List.mem_filter]
        intro p hp
        exact hp.2

/-- Claim C8 witness: deleting product 1 from a concrete state leaves no
embedding row and no product row with id 1. -/
theorem delete_product_cascades_embeddings_witness :
    (dbS1.product_embeddings.all fun e => e.product_id != 1) = true ∧
    (dbS1.products.all fun p => p.id != 1) = true :=
  delete_product_cascades_embeddings dbS0 1 dbS1 rfl

/-! ## Claim C9 -/

/-- Claim C9: GET /health is served without authentication and without any
store dependency: the route sits outside the protected group, its chain
carries no JWT stage, the handler closure receives no store resource, and
for every time value the handler alone produces the 200 application/json
success response. -/
theorem health_no_auth_no_store :
    healthRoute ∈ routes ∧
    healthRoute.isProtected = false ∧
    (routeMiddlewares healthRoute).contains MwStage.jwtAuth = false ∧
    handlerResources HandlerName.healthHandler = [] ∧
    ∀ now : String, (healthHandler now).status = 200 ∧
      (healthHandler now).contentType = "application/json" ∧
      (healthHandler now).body = healthBody now := by
  refine ⟨List.mem_cons_self _ _, rfl, by decide, rfl, fun now => ⟨rfl, rfl, rfl⟩⟩

/-- Claim C9 witness: the handler evaluated at a concrete timestamp. -/
theorem health_no_auth_no_store_witness :
    (healthHandler "2026-01-01T00:00:00Z").status = 200 :=
  (health_no_auth_no_store.2.2.2.2 "2026-01-01T00:00:00Z").1

/-! ## Claim C10 -/

/-- Claim C10: for each of users, products, reviews, orders, cart and
user_preferences — exactly the tables named in the CREATE TRIGGER
statements — the BEFORE UPDATE trigger update_updated_at_column makes every
row update store the update time into updated_at, whatever the update
statement itself wrote, so no update leaves updated_at at an older value. -/
theorem update_triggers_set_updated_at :
    updatedAtTriggerTables =
      [SchemaTable.users, SchemaTable.products, SchemaTable.reviews,
       SchemaTable.orders, SchemaTable.cart, SchemaTable.userPreferences] ∧
    ∀ (α : Type) (tbl : SchemaTable), tbl ∈ updatedAtTriggerTables →
      ∀ (upd : TriggeredRow α → TriggeredRow α) (now : Nat) (row : TriggeredRow α),
        (applyRowUpdate tbl now upd row).updated_at = now := by
  refine ⟨rfl, ?_⟩
  intro α tbl htbl upd now row
  simp only [applyRowUpdate]
  rw [if_pos htbl]
  rfl

/-- Claim C10 witness: an update on a users row that even tries to write an
old updated_at value still stores the update time 42. -/
theorem update_triggers_set_updated_at_witness :
    (applyRowUpdate SchemaTable.users 42 updFixture ⟨0, 7⟩).updated_at = 42 :=
  update_triggers_set_updated_at.2 Nat SchemaTable.users (by decide) updFixture 42 ⟨0, 7⟩
